import Mathlib

/-!
Verification development for the `snowflake_to_gemini` Streamlit orchestrator
(`src/pages/1_App.py`).  The executable core of the page — the Drive folder
reconciler `get_or_create_folder`, the Gemini retry sensor
`gemini_sensor_with_retry`, the per-sheet extract/mask/upload/verify loop of
the TRIGGER DAG block, and the config upload handler — is embedded shallowly
below.  External collaborators (the Drive API, the Snowflake session, and the
Gemini model) are modelled by an explicit environment: the Drive namespace is
an explicit state, the Snowflake query-history lookup and result-scan are
oracle functions, and an external call that may raise is modelled by a Boolean
oracle selecting the raising behaviour.
-/

namespace SnowGem

/-! ### Tabular data and the masking loop (1_App.py lines 131-134)

A pandas data frame is modelled as a list of column names together with rows
of cells aligned positionally with the columns. -/

structure Table where
  cols : List String
  rows : List (List String)
deriving Repr, DecidableEq

/-- One cell of a table, with defaults out of range (rows are kept aligned
with `cols` by the well-formedness hypotheses of the theorems below). -/
def Table.cell (t : Table) (i j : Nat) : String :=
  ((t.rows[i]?).getD [])[j]?.getD ""

/-- Effect of the pandas assignment `df[col] = "***"` on one row: every cell
sitting under a column named `col` is replaced by the marker. -/
def maskRow (cols : List String) (col : String) (row : List String) : List String :=
  (cols.zip row).map (fun p => if p.1 = col then "***" else p.2)

/-- One iteration of the masking loop body
`if col in df.columns: df[col] = "***"` (line 134). -/
def maskStep (acc : Table) (col : String) : Table :=
  if acc.cols.contains col then
    { acc with rows := acc.rows.map (maskRow acc.cols col) }
  else acc

/-- The masking loop `for col in db.get('mask_columns', []): ...`
(lines 133-134). -/
def applyMasking (maskCols : List String) (t : Table) : Table :=
  maskCols.foldl maskStep t

/-! ### The Gemini retry sensor (1_App.py lines 53-64)

The body of the `try` block is `time.sleep(5)` followed by
`return True, <success message>`; the bare `except` catches anything the
body raises.  Whether the body of attempt `i` runs to completion is decided
by the environment through `probe i` (`true` = the body completes and the
sensor returns success, `false` = the body raises and the attempt is
consumed). -/

def geminiSuccessMsg : String := "Data successfully indexed in Gemini Knowledge Base."

def geminiFailMsg : String := "Gemini failed to sync data after multiple attempts."

/-- Default value of the `max_retries` parameter (line 53). -/
def gemini_default_max_retries : Nat := 3

/-- The `time.sleep(5)` simulation delay inside the attempt body (line 60). -/
def indexing_delay_seconds : Nat := 5

/-- The `time.sleep(10)` backoff between consecutive attempts (line 63);
a constant function of the attempt number. -/
def inter_attempt_delay_seconds (_attempt : Nat) : Nat := 10

/-- The `for attempt in range(1, max_retries + 1)` loop, by fuel:
`attempt` is the number of the next attempt, the fuel is the number of
attempts still allowed.  Result: (success flag, message, attempts used). -/
def geminiLoop (probe : Nat → Bool) (attempt : Nat) : Nat → Bool × String × Nat
  | 0 => (false, geminiFailMsg, attempt - 1)
  | n + 1 =>
    if probe attempt then (true, geminiSuccessMsg, attempt)
    else geminiLoop probe (attempt + 1) n

/-- Embedding of `gemini_sensor_with_retry` (lines 53-64).  The `model`,
`tag_name` and `project_path` parameters of the Python function do not
influence the control flow (the real Gemini call is commented out), so the
embedding keeps only the raising behaviour `probe` and `max_retries`. -/
def gemini_sensor_with_retry (probe : Nat → Bool) (max_retries : Nat) : Bool × String × Nat :=
  geminiLoop probe 1 max_retries

/-! ### The Drive namespace and `get_or_create_folder` (1_App.py lines 42-50) -/

structure Folder where
  id : Nat
  name : String
  parents : List Nat
  trashed : Bool
  createdTime : Nat
deriving Repr, DecidableEq

structure Artifact where
  name : String
  parent : Nat
  payload : Table
deriving Repr, DecidableEq

/-- The remote Drive namespace: folders, uploaded files, and a counter
producing fresh ids.  A freshly created folder records the counter as its
creation time, so ids and creation times both grow with time. -/
structure DriveSt where
  folders : List Folder
  artifacts : List Artifact
  nextId : Nat
deriving Repr, DecidableEq

/-- The filter encoded in the query string of line 44-45: exact name match,
folder mime type (folders and artifacts are kept apart in the model),
not trashed, and — only when a parent is given — the parent among the
folder's parents.  When `parent_id` is absent the query does not constrain
the parent at all, exactly like the Python string concatenation. -/
def folderMatches (folder_name : String) (parent_id : Option Nat) (f : Folder) : Bool :=
  f.name == folder_name && !f.trashed &&
    (match parent_id with
     | none => true
     | some p => f.parents.contains p)

/-- `service.files().list(q=query, ...)` (line 46): the matching folders in
the namespace's listing order. -/
def listFolderQuery (s : DriveSt) (folder_name : String) (parent_id : Option Nat) : List Folder :=
  s.folders.filter (folderMatches folder_name parent_id)

/-- Embedding of `get_or_create_folder` (lines 42-50): take the head
`files[0]` of the listing if it is non-empty, otherwise create a folder
under the given parent.  Returns (id, status string, resulting namespace). -/
def get_or_create_folder (s : DriveSt) (folder_name : String) (parent_id : Option Nat) :
    Nat × String × DriveSt :=
  match listFolderQuery s folder_name parent_id with
  | f :: _ => (f.id, "EXISTS", s)
  | [] =>
    let newFolder : Folder :=
      { id := s.nextId
        name := folder_name
        parents := match parent_id with | some p => [p] | none => []
        trashed := false
        createdTime := s.nextId }
    (s.nextId, "CREATED",
      { s with folders := s.folders ++ [newFolder], nextId := s.nextId + 1 })

/-! ### The configuration hierarchy read by the TRIGGER DAG block

Only the fields the execution block actually reads are modelled:
`project_name`, `workbooks`/`workbook_name`, `dashboards`/`dashboard_name`,
`sheets` and `mask_columns`. -/

structure Dashboard where
  dashboard_name : String
  sheets : List String
  mask_columns : List String
deriving Repr, DecidableEq

structure Workbook where
  workbook_name : String
  dashboards : List Dashboard
deriving Repr, DecidableEq

structure Config where
  project_name : String
  workbooks : List Workbook
deriving Repr, DecidableEq

/-- Environment of one TRIGGER DAG run: the three collaborator
initializations (lines 106-108) may fail, a Drive folder call may raise
(selected by name), the Snowflake query-history lookup of line 128 returns
the latest successful query id for a tag (or nothing), the result-scan of
line 131 materializes a table for a query id, and `probe` gives the raising
behaviour of the Gemini sensor body per sheet and attempt. -/
structure Env where
  snowflakeOk : Bool
  driveOk : Bool
  geminiOk : Bool
  driveRaises : String → Bool
  latestQueryId : String → Option String
  resultTable : String → Table
  probe : String → Nat → Bool

/-- Observable status events written by the run (the `st.write` calls of the
execution block, message arguments kept where they carry run data). -/
inductive Event where
  | projectCheck (project : String) (msg : String)
  | task1Folder (dashboard : String) (msg : String)
  | task2Extract (sheet : String)
  | task2Success (sheet : String)
  | task3Verify (sheet : String)
  | task3Ok (sheet : String) (msg : String)
  | task3Failed (sheet : String) (msg : String)
  | orchestrationError (msg : String)
deriving Repr, DecidableEq

/-- One `st.session_state.gov_logs` entry, as appended on line 149. -/
structure LogEntry where
  task : String
  status : String
  gemini : String
deriving Repr, DecidableEq

/-- Mutable state threaded through the execution block: the event stream,
the governance log, the Drive namespace, and the sequence of folder names
for which a reconciliation call was issued (in call order). -/
structure RunSt where
  events : List Event
  logs : List LogEntry
  drive : DriveSt
  ops : List String
deriving Repr

/-- A `get_or_create_folder` call through the Drive service: the environment
decides (by folder name) whether the remote call raises; otherwise the call
behaves as `get_or_create_folder`. -/
def driveEnsure (env : Env) (s : DriveSt) (name : String) (parent_id : Option Nat) :
    Except String (Nat × String × DriveSt) :=
  if env.driveRaises name then Except.error (String.append "ReconcileError: " name)
  else Except.ok (get_or_create_folder s name parent_id)

/-- The per-sheet body of the innermost loop (lines 126-149): Task 2 extract
announcement, query-history lookup, and — only when a query id is found —
masking, upload of the serialized artifact into the dashboard folder,
Task 3 verification with default retries, and the unconditional
`gov_logs.append({"Task": sheet, "Status": "Complete", "Gemini": "Verified"})`. -/
def processSheet (env : Env) (db : Dashboard) (db_id : Nat) (st : RunSt) (sheet : String) :
    RunSt :=
  let st1 := { st with events := st.events ++ [Event.task2Extract sheet] }
  match env.latestQueryId sheet with
  | none => st1
  | some qid =>
    let masked := applyMasking db.mask_columns (env.resultTable qid)
    let st2 := { st1 with
      drive := { st1.drive with
        artifacts := st1.drive.artifacts ++
          [Artifact.mk (String.append sheet ".json") db_id masked] }
      events := st1.events ++ [Event.task2Success sheet, Event.task3Verify sheet] }
    let r := gemini_sensor_with_retry (env.probe sheet) gemini_default_max_retries
    let ev := if r.1 then Event.task3Ok sheet r.2.1 else Event.task3Failed sheet r.2.1
    { st2 with
      events := st2.events ++ [ev]
      logs := st2.logs ++ [LogEntry.mk sheet "Complete" "Verified"] }

/-- The `for sheet in db.get('sheets', [])` loop (line 126). -/
def processSheets (env : Env) (db : Dashboard) (db_id : Nat) (st : RunSt) :
    List String → RunSt
  | [] => st
  | sheet :: rest => processSheets env db db_id (processSheet env db db_id st sheet) rest

/-- The `for db in wb.get('dashboards', [])` loop (lines 120-149): Task 1
folder reconciliation (its failure propagates to the surrounding handler),
then the sheet loop.  The second component carries a raised exception. -/
def processDashboards (env : Env) (wb_id : Nat) (st : RunSt) :
    List Dashboard → RunSt × Option String
  | [] => (st, none)
  | db :: rest =>
    let st1 := { st with ops := st.ops ++ [db.dashboard_name] }
    match driveEnsure env st1.drive db.dashboard_name (some wb_id) with
    | Except.error e => (st1, some e)
    | Except.ok r =>
      let st2 := { st1 with
        drive := r.2.2
        events := st1.events ++ [Event.task1Folder db.dashboard_name r.2.1] }
      processDashboards env wb_id (processSheets env db r.1 st2 db.sheets) rest

/-- The `for wb in ...workbooks` loop (lines 117-149).  The workbook folder
reconciliation writes no event (line 118 discards the status message). -/
def processWorkbooks (env : Env) (p_id : Nat) (st : RunSt) :
    List Workbook → RunSt × Option String
  | [] => (st, none)
  | wb :: rest =>
    let st1 := { st with ops := st.ops ++ [wb.workbook_name] }
    match driveEnsure env st1.drive wb.workbook_name (some p_id) with
    | Except.error e => (st1, some e)
    | Except.ok r =>
      let pd := processDashboards env r.1 { st1 with drive := r.2.2 } wb.dashboards
      match pd.2 with
      | some e => (pd.1, some e)
      | none => processWorkbooks env p_id pd.1 rest

/-- Outcome of one TRIGGER DAG run.  `completed` records whether control
reached `status.update(label=..., state="complete")` on line 151 (an
exception anywhere inside the `try` block jumps to the handler on line 153
instead, which emits the Orchestration Error event). -/
structure RunResult where
  events : List Event
  logs : List LogEntry
  drive : DriveSt
  ops : List String
  completed : Bool
deriving Repr

/-- Embedding of the TRIGGER DAG execution block (lines 102-154): collaborator
initialization (`st.stop()` when one fails, before any work), project folder
reconciliation, then the workbook traversal; any exception raised inside the
block is caught by the single `except` on line 153, ending the run. -/
def runDag (env : Env) (cfg : Config) (drive0 : DriveSt) : RunResult :=
  if env.snowflakeOk && env.driveOk && env.geminiOk then
    match driveEnsure env drive0 cfg.project_name none with
    | Except.error e =>
      { events := [Event.orchestrationError e], logs := [], drive := drive0
        ops := [cfg.project_name], completed := false }
    | Except.ok r =>
      let pw := processWorkbooks env r.1
        (RunSt.mk [Event.projectCheck cfg.project_name r.2.1] [] r.2.2 [cfg.project_name])
        cfg.workbooks
      match pw.2 with
      | none =>
        { events := pw.1.events, logs := pw.1.logs, drive := pw.1.drive
          ops := pw.1.ops, completed := true }
      | some e =>
        { events := pw.1.events ++ [Event.orchestrationError e], logs := pw.1.logs
          drive := pw.1.drive, ops := pw.1.ops, completed := false }
  else
    { events := [], logs := [], drive := drive0, ops := [], completed := false }

/-! ### The configuration upload handler (1_App.py lines 78-80) and the
dictionary accesses of the preview/execution blocks -/

inductive Json where
  | null
  | bool (b : Bool)
  | num (n : Int)
  | str (s : String)
  | arr (xs : List Json)
  | obj (fields : List (String × Json))
deriving Repr

/-- Validation outcomes named by the design document; the upload handler of
the page performs no validation, so the embedding below never produces one. -/
inductive ConfigError where
  | malformedDocument
  | duplicateSheetTag
deriving Repr, DecidableEq

/-- Embedding of the upload handler (lines 78-80): `json.load(config_file)`
stores the parsed document in session state as-is; no structural check and no
duplicate-tag check is performed on the document. -/
def loadConfigUpload (doc : Json) : Except ConfigError Json := Except.ok doc

/-- Python `d[k]` on a parsed JSON object: `none` models a raised `KeyError`
(also raised when the value is not a dictionary). -/
def Json.getField (j : Json) (k : String) : Option Json :=
  match j with
  | Json.obj fields => fields.lookup k
  | _ => none

/-- Python `d.get(k, [])` followed by iteration: the elements when the field
holds an array, and the default `[]` otherwise. -/
def Json.getArrD (j : Json) (k : String) : List Json :=
  match j.getField k with
  | some (Json.arr xs) => xs
  | _ => []

/-- String content of a JSON value (the page interpolates the value into
f-strings; non-strings are collapsed to a default here). -/
def Json.strD (j : Json) : String :=
  match j with
  | Json.str s => s
  | _ => ""

def jsonSheets (db : Json) : List String := (db.getArrD "sheets").map Json.strD

/-- Dictionary accesses the execution block performs on one dashboard:
`db['dashboard_name']` (KeyError when absent), `db.get('sheets', [])`,
`db.get('mask_columns', [])`. -/
def decodeDashboard (j : Json) : Except String Dashboard :=
  match j.getField "dashboard_name" with
  | none => Except.error "KeyError: dashboard_name"
  | some n =>
    Except.ok
      { dashboard_name := n.strD
        sheets := jsonSheets j
        mask_columns := (j.getArrD "mask_columns").map Json.strD }

/-- Dictionary accesses the execution block performs on one workbook:
`wb['workbook_name']` (KeyError when absent), `wb.get('dashboards', [])`. -/
def decodeWorkbook (j : Json) : Except String Workbook :=
  match j.getField "workbook_name" with
  | none => Except.error "KeyError: workbook_name"
  | some n => do
    let dbs ← (j.getArrD "dashboards").mapM decodeDashboard
    Except.ok { workbook_name := n.strD, dashboards := dbs }

/-- Dictionary accesses performed on the stored document:
`config['project_name']` (line 84/114, KeyError when absent) and
`config.get('workbooks', [])` (line 86/117). -/
def decodeConfig (j : Json) : Except String Config :=
  match j.getField "project_name" with
  | none => Except.error "KeyError: project_name"
  | some n => do
    let wbs ← (j.getArrD "workbooks").mapM decodeWorkbook
    Except.ok { project_name := n.strD, workbooks := wbs }

/-- Modelled from the spec (section 4.1): the duplicate-tag condition the
design document requires the parser to reject — two sheets under the same
dashboard sharing a tag. -/
def hasDuplicateSheetTag (doc : Json) : Prop :=
  ∃ wb ∈ doc.getArrD "workbooks", ∃ db ∈ wb.getArrD "dashboards",
    ¬ (jsonSheets db).Nodup

/-! ### Characterizations used by the run-level theorems

`sheetEventsModel`, `sheetLogsModel` and `sheetArtifactsModel` restate, per
sheet, exactly what `processSheet` appends; `specTrace` and `docOrderOps`
express the document-order traversal the design document prescribes. -/

def mkGovEntry (sheet : String) : LogEntry := LogEntry.mk sheet "Complete" "Verified"

def sheetEventsModel (env : Env) (sheet : String) : List Event :=
  Event.task2Extract sheet ::
    (match env.latestQueryId sheet with
     | none => []
     | some _ =>
       let r := gemini_sensor_with_retry (env.probe sheet) gemini_default_max_retries
       [Event.task2Success sheet, Event.task3Verify sheet,
        if r.1 then Event.task3Ok sheet r.2.1 else Event.task3Failed sheet r.2.1])

def sheetLogsModel (env : Env) (sheet : String) : List LogEntry :=
  match env.latestQueryId sheet with
  | none => []
  | some _ => [mkGovEntry sheet]

def sheetArtifactsModel (env : Env) (db : Dashboard) (db_id : Nat) (sheet : String) :
    List Artifact :=
  match env.latestQueryId sheet with
  | none => []
  | some qid =>
    [Artifact.mk (String.append sheet ".json") db_id
      (applyMasking db.mask_columns (env.resultTable qid))]

/-- Kind/subject projection of an event, forgetting run-dependent messages. -/
def eventLabel : Event → String × String
  | Event.projectCheck p _ => ("project", p)
  | Event.task1Folder d _ => ("task1", d)
  | Event.task2Extract s => ("task2start", s)
  | Event.task2Success s => ("task2done", s)
  | Event.task3Verify s => ("task3start", s)
  | Event.task3Ok s _ => ("task3ok", s)
  | Event.task3Failed s _ => ("task3fail", s)
  | Event.orchestrationError m => ("error", m)

/-- Modelled from the spec (section 4.5): the per-sheet event sequence in
document order — extract, then (when a result set exists) place and verify. -/
def specSheetTrace (env : Env) (sheet : String) : List (String × String) :=
  ("task2start", sheet) ::
    (match env.latestQueryId sheet with
     | none => []
     | some _ =>
       [("task2done", sheet), ("task3start", sheet),
        (if (gemini_sensor_with_retry (env.probe sheet) gemini_default_max_retries).1
         then ("task3ok", sheet) else ("task3fail", sheet))])

/-- Modelled from the spec (section 4.5): dashboard container event, then its
sheets in configuration order. -/
def specDashboardTrace (env : Env) (db : Dashboard) : List (String × String) :=
  ("task1", db.dashboard_name) :: db.sheets.flatMap (specSheetTrace env)

/-- Modelled from the spec (section 4.5): project container event first, then
every workbook's dashboards in configuration order (the workbook container is
reconciled but writes no status event). -/
def specTrace (env : Env) (cfg : Config) : List (String × String) :=
  ("project", cfg.project_name) ::
    cfg.workbooks.flatMap (fun wb => wb.dashboards.flatMap (specDashboardTrace env))

/-- Modelled from the spec (section 4.5): depth-first document order of the
container reconciliations — project, then per workbook its container followed
by its dashboards' containers. -/
def docOrderOps (cfg : Config) : List String :=
  cfg.project_name ::
    cfg.workbooks.flatMap (fun wb =>
      wb.workbook_name :: wb.dashboards.map (fun db => db.dashboard_name))

/-- The sheets whose extraction query finds a successful result set, in
document order. -/
def extractedSheets (env : Env) (cfg : Config) : List String :=
  cfg.workbooks.flatMap (fun wb =>
    wb.dashboards.flatMap (fun db =>
      db.sheets.filter (fun s => (env.latestQueryId s).isSome)))

/-- Modelled from the spec (section 4.2): the deterministic tie-break the
design document prescribes for a namespace-ambiguity — the earliest-created
matching container. -/
def earliestCreatedMatch (s : DriveSt) (folder_name : String) (parent_id : Option Nat) :
    Option Folder :=
  (listFolderQuery s folder_name parent_id).foldl
    (fun acc f =>
      match acc with
      | none => some f
      | some g => if f.createdTime < g.createdTime then some f else some g)
    none

/-! ### Properties of the retry sensor -/

theorem geminiLoop_att_le (probe : Nat → Bool) (n : Nat) :
    ∀ a : Nat, (geminiLoop probe a n).2.2 ≤ a + n - 1 := by
  induction n with
  | zero => intro a; simp [geminiLoop]
  | succ n ih =>
    intro a
    by_cases h : probe a
    · have e : geminiLoop probe a (n + 1) = (true, geminiSuccessMsg, a) := by
        simp [geminiLoop, h]
      rw [e]
      show a ≤ a + (n + 1) - 1
      omega
    · simp only [geminiLoop, h, if_neg, Bool.false_eq_true, if_false]
      have := ih (a + 1)
      omega

theorem geminiLoop_false_iff (probe : Nat → Bool) (n : Nat) :
    ∀ a : Nat, (geminiLoop probe a n).1 = false ↔
      ∀ i : Nat, a ≤ i → i < a + n → probe i = false := by
  induction n with
  | zero =>
    intro a
    constructor
    · intro _ i hai hlt; omega
    · intro _; rfl
  | succ n ih =>
    intro a
    by_cases h : probe a
    · have e : geminiLoop probe a (n + 1) = (true, geminiSuccessMsg, a) := by
        simp [geminiLoop, h]
      rw [e]
      constructor
      · intro hc; simp at hc
      · intro hall
        have hpa := hall a (le_refl a) (by omega)
        simp [h] at hpa
    · have hfa : probe a = false := by simpa using h
      simp only [geminiLoop, h, if_false, Bool.false_eq_true]
      rw [ih (a + 1)]
      constructor
      · intro hall i hai hlt
        rcases Nat.eq_or_lt_of_le hai with heq | hgt
        · rw [← heq]; exact hfa
        · exact hall i hgt (by omega)
      · intro hall i hai hlt
        exact hall i (by omega) (by omega)

theorem geminiLoop_false_att (probe : Nat → Bool) (n : Nat) :
    ∀ a : Nat, (geminiLoop probe a n).1 = false → (geminiLoop probe a n).2.2 = a + n - 1 := by
  induction n with
  | zero => intro a _; simp [geminiLoop]
  | succ n ih =>
    intro a hf
    by_cases h : probe a
    · simp [geminiLoop, h] at hf
    · simp only [geminiLoop, h, if_false, Bool.false_eq_true] at hf ⊢
      have := ih (a + 1) hf
      omega

theorem geminiLoop_true_first (probe : Nat → Bool) (n : Nat) :
    ∀ a : Nat, (geminiLoop probe a n).1 = true →
      a ≤ (geminiLoop probe a n).2.2 ∧ (geminiLoop probe a n).2.2 < a + n ∧
      probe (geminiLoop probe a n).2.2 = true ∧
      ∀ j : Nat, a ≤ j → j < (geminiLoop probe a n).2.2 → probe j = false := by
  induction n with
  | zero => intro a hc; simp [geminiLoop] at hc
  | succ n ih =>
    intro a ht
    by_cases h : probe a
    · have e : geminiLoop probe a (n + 1) = (true, geminiSuccessMsg, a) := by
        simp [geminiLoop, h]
      rw [e]
      refine ⟨le_refl a, by show a < a + (n + 1); omega, h, ?_⟩
      intro j haj hjlt
      have hja2 : j < a := hjlt
      omega
    · have hfa : probe a = false := by simpa using h
      simp only [geminiLoop, h, if_false, Bool.false_eq_true] at ht ⊢
      obtain ⟨h1, h2, h3, h4⟩ := ih (a + 1) ht
      refine ⟨by omega, by omega, h3, ?_⟩
      intro j haj hjlt
      rcases Nat.eq_or_lt_of_le haj with heq | hgt
      · rw [← heq]; exact hfa
      · exact h4 j hgt hjlt

theorem geminiLoop_msg (probe : Nat → Bool) (n : Nat) :
    ∀ a : Nat, (geminiLoop probe a n).2.1 =
      if (geminiLoop probe a n).1 then geminiSuccessMsg else geminiFailMsg := by
  induction n with
  | zero => intro a; simp [geminiLoop]
  | succ n ih =>
    intro a
    by_cases h : probe a
    · simp [geminiLoop, h]
    · simp only [geminiLoop, h, if_false, Bool.false_eq_true]
      exact ih (a + 1)

/-- C6: for every maxAttempts >= 1 and every sequence of probe outcomes, the
retry sensor issues at most `maxAttempts` probes (the attempt counter it
returns never exceeds `maxAttempts`), returns success immediately on the
first attempt whose body completes (all earlier attempts raised), and returns
the exhausted result exactly when all `maxAttempts` attempt bodies raised, in
which case the counter equals `maxAttempts`; the default is
`max_retries = 3` and the inter-attempt backoff delay is constant, hence
monotonically non-decreasing. -/
theorem c6_retry_bound (probe : Nat → Bool) (maxAttempts : Nat) (hmax : 1 ≤ maxAttempts) :
    (gemini_sensor_with_retry probe maxAttempts).2.2 ≤ maxAttempts ∧
    ((gemini_sensor_with_retry probe maxAttempts).1 = true →
      probe (gemini_sensor_with_retry probe maxAttempts).2.2 = true ∧
      ∀ j : Nat, 1 ≤ j → j < (gemini_sensor_with_retry probe maxAttempts).2.2 →
        probe j = false) ∧
    ((gemini_sensor_with_retry probe maxAttempts).1 = false ↔
      ∀ i : Nat, 1 ≤ i → i ≤ maxAttempts → probe i = false) ∧
    ((gemini_sensor_with_retry probe maxAttempts).1 = false →
      (gemini_sensor_with_retry probe maxAttempts).2.2 = maxAttempts) ∧
    gemini_default_max_retries = 3 ∧
    (∀ i j : Nat, i ≤ j → inter_attempt_delay_seconds i ≤ inter_attempt_delay_seconds j) := by
  unfold gemini_sensor_with_retry
  refine ⟨?_, ?_, ?_, ?_, rfl, fun i j _ => le_refl _⟩
  · have := geminiLoop_att_le probe maxAttempts 1
    omega
  · intro ht
    obtain ⟨h1, h2, h3, h4⟩ := geminiLoop_true_first probe maxAttempts 1 ht
    exact ⟨h3, h4⟩
  · rw [geminiLoop_false_iff probe maxAttempts 1]
    constructor
    · intro hall i h1 h2; exact hall i h1 (by omega)
    · intro hall i h1 h2; exact hall i h1 (by omega)
  · intro hf
    have := geminiLoop_false_att probe maxAttempts 1 hf
    omega

/-- Witness for `c6_retry_bound` at the always-raising probe and the default
three attempts. -/
theorem c6_retry_bound_witness :
    1 ≤ 3 ∧
    ((gemini_sensor_with_retry (fun _ => false) 3).2.2 ≤ 3 ∧
    ((gemini_sensor_with_retry (fun _ => false) 3).1 = true →
      (fun _ => false : Nat → Bool) (gemini_sensor_with_retry (fun _ => false) 3).2.2 = true ∧
      ∀ j : Nat, 1 ≤ j → j < (gemini_sensor_with_retry (fun _ => false) 3).2.2 →
        (fun _ => false : Nat → Bool) j = false) ∧
    ((gemini_sensor_with_retry (fun _ => false) 3).1 = false ↔
      ∀ i : Nat, 1 ≤ i → i ≤ 3 → (fun _ => false : Nat → Bool) i = false) ∧
    ((gemini_sensor_with_retry (fun _ => false) 3).1 = false →
      (gemini_sensor_with_retry (fun _ => false) 3).2.2 = 3) ∧
    gemini_default_max_retries = 3 ∧
    (∀ i j : Nat, i ≤ j →
      inter_attempt_delay_seconds i ≤ inter_attempt_delay_seconds j)) :=
  ⟨by decide, c6_retry_bound (fun _ => false) 3 (by decide)⟩

/-- C10: the attempt body of `gemini_sensor_with_retry` is
`time.sleep(5); return True, <message>` (the real Gemini call is commented
out), so under the body's unconditional completion the sensor returns success
with the fixed message on attempt 1 for every `max_retries >= 1`; the
exception branch and the exhausted return are never taken, and the attempt
counter never exceeds 1.  The in-attempt delay is the constant 5 seconds. -/
theorem c10_first_attempt_success (max_retries : Nat) (hmax : 1 ≤ max_retries) :
    gemini_sensor_with_retry (fun _ => true) max_retries = (true, geminiSuccessMsg, 1) ∧
    indexing_delay_seconds = 5 := by
  cases max_retries with
  | zero => omega
  | succ n => exact ⟨rfl, rfl⟩

/-- Witness for `c10_first_attempt_success` at the default three attempts. -/
theorem c10_first_attempt_success_witness :
    1 ≤ 3 ∧
    (gemini_sensor_with_retry (fun _ => true) 3 = (true, geminiSuccessMsg, 1) ∧
     indexing_delay_seconds = 5) :=
  ⟨by decide, c10_first_attempt_success 3 (by decide)⟩

/-! ### Properties of the masking transformation -/

theorem maskStep_cols (t : Table) (col : String) : (maskStep t col).cols = t.cols := by
  unfold maskStep
  split <;> rfl

theorem maskStep_rows_length (t : Table) (col : String) :
    (maskStep t col).rows.length = t.rows.length := by
  unfold maskStep
  split <;> simp

theorem maskRow_length (cols : List String) (col : String) (row : List String) :
    (maskRow cols col row).length = min cols.length row.length := by
  simp [maskRow]

theorem maskStep_wf (t : Table) (col : String)
    (hwf : ∀ r ∈ t.rows, r.length = t.cols.length) :
    ∀ r ∈ (maskStep t col).rows, r.length = (maskStep t col).cols.length := by
  rw [maskStep_cols]
  unfold maskStep
  split
  · intro r hr
    rw [List.mem_map] at hr
    obtain ⟨r0, hr0, rfl⟩ := hr
    rw [maskRow_length, hwf r0 hr0]
    simp
  · exact hwf

theorem maskRow_getD (cols : List String) (col : String) :
    ∀ (row : List String) (j : Nat), row.length = cols.length → j < cols.length →
      (maskRow cols col row)[j]?.getD "" =
        if cols[j]?.getD "" = col then "***" else row[j]?.getD "" := by
  induction cols with
  | nil => intro row j _ hj; simp at hj
  | cons c cs ih =>
    intro row j hlen hj
    cases row with
    | nil => simp at hlen
    | cons v vs =>
      have step : maskRow (c :: cs) col (v :: vs) =
          (if c = col then "***" else v) :: maskRow cs col vs := rfl
      cases j with
      | zero => rw [step]; simp
      | succ j =>
        rw [step]
        simp only [List.getElem?_cons_succ]
        exact ih vs j (by simpa using hlen) (by simpa using hj)

theorem maskStep_cell (t : Table) (col : String) (i j : Nat)
    (hwf : ∀ r ∈ t.rows, r.length = t.cols.length)
    (hi : i < t.rows.length) (hj : j < t.cols.length) :
    (maskStep t col).cell i j =
      if t.cols[j]?.getD "" = col then "***" else t.cell i j := by
  unfold maskStep
  split
  case isTrue hcon =>
    unfold Table.cell
    have hrow : t.rows[i]? = some t.rows[i] := List.getElem?_eq_getElem hi
    simp only [List.getElem?_map, hrow, Option.map_some, Option.getD_some]
    exact maskRow_getD t.cols col t.rows[i] j (hwf _ (List.getElem_mem hi)) hj
  case isFalse hcon =>
    have hne : t.cols[j]?.getD "" ≠ col := by
      intro heq
      apply hcon
      have : t.cols[j]?.getD "" ∈ t.cols := by
        rw [List.getElem?_eq_getElem hj]
        exact List.getElem_mem hj
      rw [heq] at this
      simpa using this
    rw [if_neg hne]

theorem applyMasking_cols (maskCols : List String) :
    ∀ t : Table, (applyMasking maskCols t).cols = t.cols := by
  induction maskCols with
  | nil => intro t; rfl
  | cons c cs ih =>
    intro t
    have step : applyMasking (c :: cs) t = applyMasking cs (maskStep t c) := rfl
    rw [step, ih (maskStep t c), maskStep_cols]

theorem applyMasking_rows_length (maskCols : List String) :
    ∀ t : Table, (applyMasking maskCols t).rows.length = t.rows.length := by
  induction maskCols with
  | nil => intro t; rfl
  | cons c cs ih =>
    intro t
    have step : applyMasking (c :: cs) t = applyMasking cs (maskStep t c) := rfl
    rw [step, ih (maskStep t c), maskStep_rows_length]

theorem applyMasking_cell (maskCols : List String) :
    ∀ (t : Table) (i j : Nat), (∀ r ∈ t.rows, r.length = t.cols.length) →
      i < t.rows.length → j < t.cols.length →
      (applyMasking maskCols t).cell i j =
        if t.cols[j]?.getD "" ∈ maskCols then "***" else t.cell i j := by
  induction maskCols with
  | nil => intro t i j _ _ _; simp [applyMasking]
  | cons c cs ih =>
    intro t i j hwf hi hj
    have step : applyMasking (c :: cs) t = applyMasking cs (maskStep t c) := rfl
    rw [step,
      ih (maskStep t c) i j (maskStep_wf t c hwf)
        (by rw [maskStep_rows_length]; exact hi)
        (by rw [maskStep_cols]; exact hj),
      maskStep_cols, maskStep_cell t c i j hwf hi hj]
    by_cases hc : t.cols[j]?.getD "" = c
    · simp [hc]
    · by_cases hcs : t.cols[j]?.getD "" ∈ cs
      · simp [hc, hcs]
      · have : t.cols[j]?.getD "" ∉ (c :: cs) := by
          simp [hc, hcs]
        simp [hc, hcs, this]

theorem applyMasking_noop (maskCols : List String) :
    ∀ t : Table, (∀ c ∈ maskCols, c ∉ t.cols) → applyMasking maskCols t = t := by
  induction maskCols with
  | nil => intro t _; rfl
  | cons c cs ih =>
    intro t habs
    have step : applyMasking (c :: cs) t = applyMasking cs (maskStep t c) := rfl
    have hstep : maskStep t c = t := by
      unfold maskStep
      rw [if_neg]
      intro hcon
      exact habs c (List.mem_cons_self c cs) (by simpa using hcon)
    rw [step, hstep]
    exact ih t (fun x hx => habs x (List.mem_cons_of_mem c hx))

/-- C4: masking preserves the column list (order included) and the number of
rows; every cell lying under a column whose name is listed in `maskCols` is
exactly the marker, every other cell is unchanged; and a `maskCols` list that
names no actual column leaves the table entirely unchanged (a no-op, not an
error — `applyMasking` is total). -/
theorem c4_masking (maskCols : List String) (t : Table)
    (hwf : ∀ r ∈ t.rows, r.length = t.cols.length) :
    (applyMasking maskCols t).cols = t.cols ∧
    (applyMasking maskCols t).rows.length = t.rows.length ∧
    (∀ i j : Nat, i < t.rows.length → j < t.cols.length →
      (applyMasking maskCols t).cell i j =
        if t.cols[j]?.getD "" ∈ maskCols then "***" else t.cell i j) ∧
    ((∀ c ∈ maskCols, c ∉ t.cols) → applyMasking maskCols t = t) :=
  ⟨applyMasking_cols maskCols t, applyMasking_rows_length maskCols t,
   fun i j hi hj => applyMasking_cell maskCols t i j hwf hi hj,
   applyMasking_noop maskCols t⟩

/-- Witness for `c4_masking` at the documented scenario: columns NAME and
EMAIL, one row, and `mask_columns = ["EMAIL"]`. -/
theorem c4_masking_witness :
    (∀ r ∈ (Table.mk ["NAME", "EMAIL"] [["Jo", "jo@x.com"]]).rows,
      r.length = (Table.mk ["NAME", "EMAIL"] [["Jo", "jo@x.com"]]).cols.length) ∧
    ((applyMasking ["EMAIL"] (Table.mk ["NAME", "EMAIL"] [["Jo", "jo@x.com"]])).cols =
        (Table.mk ["NAME", "EMAIL"] [["Jo", "jo@x.com"]]).cols ∧
     (applyMasking ["EMAIL"] (Table.mk ["NAME", "EMAIL"] [["Jo", "jo@x.com"]])).rows.length =
        (Table.mk ["NAME", "EMAIL"] [["Jo", "jo@x.com"]]).rows.length ∧
     (∀ i j : Nat, i < (Table.mk ["NAME", "EMAIL"] [["Jo", "jo@x.com"]]).rows.length →
        j < (Table.mk ["NAME", "EMAIL"] [["Jo", "jo@x.com"]]).cols.length →
        (applyMasking ["EMAIL"] (Table.mk ["NAME", "EMAIL"] [["Jo", "jo@x.com"]])).cell i j =
          if (Table.mk ["NAME", "EMAIL"] [["Jo", "jo@x.com"]]).cols[j]?.getD "" ∈ ["EMAIL"]
          then "***"
          else (Table.mk ["NAME", "EMAIL"] [["Jo", "jo@x.com"]]).cell i j) ∧
     ((∀ c ∈ ["EMAIL"], c ∉ (Table.mk ["NAME", "EMAIL"] [["Jo", "jo@x.com"]]).cols) →
        applyMasking ["EMAIL"] (Table.mk ["NAME", "EMAIL"] [["Jo", "jo@x.com"]]) =
          Table.mk ["NAME", "EMAIL"] [["Jo", "jo@x.com"]])) :=
  ⟨by decide, c4_masking ["EMAIL"] (Table.mk ["NAME", "EMAIL"] [["Jo", "jo@x.com"]]) (by decide)⟩

/-! ### Properties of the folder reconciler -/

theorem get_or_create_exists (s : DriveSt) (folder_name : String) (parent_id : Option Nat)
    (f : Folder) (rest : List Folder)
    (hq : listFolderQuery s folder_name parent_id = f :: rest) :
    get_or_create_folder s folder_name parent_id = (f.id, "EXISTS", s) := by
  unfold get_or_create_folder
  rw [hq]

/-- The folder that the creation branch of `get_or_create_folder` adds. -/
def newFolderFor (s : DriveSt) (folder_name : String) (parent_id : Option Nat) : Folder :=
  Folder.mk s.nextId folder_name
    (match parent_id with | some q => [q] | none => []) false s.nextId

theorem folderMatches_new (s : DriveSt) (folder_name : String) (parent_id : Option Nat) :
    folderMatches folder_name parent_id (newFolderFor s folder_name parent_id) = true := by
  cases parent_id <;> simp [newFolderFor, folderMatches]

theorem get_or_create_created (s : DriveSt) (folder_name : String) (parent_id : Option Nat)
    (hq : listFolderQuery s folder_name parent_id = []) :
    get_or_create_folder s folder_name parent_id =
      (s.nextId, "CREATED",
        DriveSt.mk (s.folders ++ [newFolderFor s folder_name parent_id])
          s.artifacts (s.nextId + 1)) := by
  unfold get_or_create_folder
  rw [hq]
  rfl

theorem listFolderQuery_after_create (s : DriveSt) (folder_name : String)
    (parent_id : Option Nat) (hq : listFolderQuery s folder_name parent_id = []) :
    listFolderQuery (get_or_create_folder s folder_name parent_id).2.2
        folder_name parent_id = [newFolderFor s folder_name parent_id] := by
  rw [get_or_create_created s folder_name parent_id hq]
  have hq2 : s.folders.filter (folderMatches folder_name parent_id) = [] := hq
  simp [listFolderQuery, List.filter_append, hq2,
    folderMatches_new s folder_name parent_id]

/-- C7: a second `get_or_create_folder` call for the same (name, parent) pair
against the state left by the first call reports EXISTS, changes nothing, and
returns the same container id as the first call; when no match existed
beforehand, the first call reports CREATED and afterwards exactly one
container matches the query. -/
theorem c7_folder_idempotent (s : DriveSt) (folder_name : String) (parent_id : Option Nat) :
    (get_or_create_folder (get_or_create_folder s folder_name parent_id).2.2
        folder_name parent_id).2.1 = "EXISTS" ∧
    (get_or_create_folder (get_or_create_folder s folder_name parent_id).2.2
        folder_name parent_id).2.2 = (get_or_create_folder s folder_name parent_id).2.2 ∧
    (get_or_create_folder (get_or_create_folder s folder_name parent_id).2.2
        folder_name parent_id).1 = (get_or_create_folder s folder_name parent_id).1 ∧
    (listFolderQuery s folder_name parent_id = [] →
      (get_or_create_folder s folder_name parent_id).2.1 = "CREATED" ∧
      (listFolderQuery (get_or_create_folder s folder_name parent_id).2.2
          folder_name parent_id).length = 1) := by
  cases hq : listFolderQuery s folder_name parent_id with
  | cons f rest =>
    have e1 := get_or_create_exists s folder_name parent_id f rest hq
    have e2 : get_or_create_folder (get_or_create_folder s folder_name parent_id).2.2
        folder_name parent_id = (f.id, "EXISTS", s) := by
      rw [e1]
      exact get_or_create_exists s folder_name parent_id f rest hq
    refine ⟨by rw [e2], by rw [e2, e1], by rw [e2, e1], ?_⟩
    intro hnil
    simp at hnil
  | nil =>
    have e1 := get_or_create_created s folder_name parent_id hq
    have eq2 := listFolderQuery_after_create s folder_name parent_id hq
    have e3 := get_or_create_exists (get_or_create_folder s folder_name parent_id).2.2
      folder_name parent_id _ [] eq2
    refine ⟨by rw [e3], by rw [e3], ?_, ?_⟩
    · rw [e3, e1]
      rfl
    · intro _
      exact ⟨by rw [e1], by rw [eq2]; rfl⟩

/-- Witness for `c7_folder_idempotent` on the empty namespace at the project
level: the first call creates, the second reports EXISTS on an unchanged
state and the namespace holds exactly one match. -/
theorem c7_folder_idempotent_witness :
    (get_or_create_folder (get_or_create_folder (DriveSt.mk [] [] 0) "P" none).2.2
        "P" none).2.1 = "EXISTS" ∧
    (get_or_create_folder (get_or_create_folder (DriveSt.mk [] [] 0) "P" none).2.2
        "P" none).2.2 = (get_or_create_folder (DriveSt.mk [] [] 0) "P" none).2.2 ∧
    (get_or_create_folder (get_or_create_folder (DriveSt.mk [] [] 0) "P" none).2.2
        "P" none).1 = (get_or_create_folder (DriveSt.mk [] [] 0) "P" none).1 ∧
    (listFolderQuery (DriveSt.mk [] [] 0) "P" none = [] →
      (get_or_create_folder (DriveSt.mk [] [] 0) "P" none).2.1 = "CREATED" ∧
      (listFolderQuery (get_or_create_folder (DriveSt.mk [] [] 0) "P" none).2.2
          "P" none).length = 1) :=
  c7_folder_idempotent (DriveSt.mk [] [] 0) "P" none

/-- C9 (amended): when the namespace query returns several matching
containers, `get_or_create_folder` returns the first match in the listing
order of the namespace — not the earliest-created one — reports EXISTS,
creates no container and leaves the state unchanged, raising no error. -/
theorem c9_first_listed_match (s : DriveSt) (folder_name : String) (parent_id : Option Nat)
    (f : Folder) (rest : List Folder)
    (hq : listFolderQuery s folder_name parent_id = f :: rest) (hmulti : rest ≠ []) :
    get_or_create_folder s folder_name parent_id = (f.id, "EXISTS", s) :=
  get_or_create_exists s folder_name parent_id f rest hq

/-- Witness for `c9_first_listed_match` on a namespace holding two containers
named D. -/
theorem c9_first_listed_match_witness :
    listFolderQuery
        (DriveSt.mk [Folder.mk 1 "D" [] false 5, Folder.mk 2 "D" [] false 3] [] 6)
        "D" none =
      Folder.mk 1 "D" [] false 5 :: [Folder.mk 2 "D" [] false 3] ∧
    ([Folder.mk 2 "D" [] false 3] : List Folder) ≠ [] ∧
    get_or_create_folder
        (DriveSt.mk [Folder.mk 1 "D" [] false 5, Folder.mk 2 "D" [] false 3] [] 6)
        "D" none =
      (1, "EXISTS",
        DriveSt.mk [Folder.mk 1 "D" [] false 5, Folder.mk 2 "D" [] false 3] [] 6) :=
  ⟨by decide, by decide,
   c9_first_listed_match
     (DriveSt.mk [Folder.mk 1 "D" [] false 5, Folder.mk 2 "D" [] false 3] [] 6)
     "D" none (Folder.mk 1 "D" [] false 5) [Folder.mk 2 "D" [] false 3]
     (by decide) (by decide)⟩

/-- C9 (counterexample): a namespace listing two matching containers where
the earlier-listed one was created later: the reconciler returns container 1
(listing head, created at time 5) while the earliest-created match is
container 2 (created at time 3) — the tie-break is listing order, not
creation time. -/
theorem c9_counterexample :
    earliestCreatedMatch
        (DriveSt.mk [Folder.mk 1 "D" [] false 5, Folder.mk 2 "D" [] false 3] [] 6)
        "D" none = some (Folder.mk 2 "D" [] false 3) ∧
    (get_or_create_folder
        (DriveSt.mk [Folder.mk 1 "D" [] false 5, Folder.mk 2 "D" [] false 3] [] 6)
        "D" none).1 = 1 ∧
    (get_or_create_folder
        (DriveSt.mk [Folder.mk 1 "D" [] false 5, Folder.mk 2 "D" [] false 3] [] 6)
        "D" none).2.1 = "EXISTS" ∧
    (Folder.mk 2 "D" [] false 3).id ≠ 1 :=
  ⟨by decide, by decide, by decide, by decide⟩

/-! ### Characterization of the run -/

theorem processSheet_spec (env : Env) (db : Dashboard) (db_id : Nat) (st : RunSt)
    (sheet : String) :
    processSheet env db db_id st sheet =
      RunSt.mk (st.events ++ sheetEventsModel env sheet)
        (st.logs ++ sheetLogsModel env sheet)
        (DriveSt.mk st.drive.folders
          (st.drive.artifacts ++ sheetArtifactsModel env db db_id sheet) st.drive.nextId)
        st.ops := by
  obtain ⟨ev, lg, ⟨fo, ar, ni⟩, op⟩ := st
  unfold processSheet sheetEventsModel sheetLogsModel sheetArtifactsModel mkGovEntry
  cases env.latestQueryId sheet <;> simp

theorem processSheets_spec (env : Env) (db : Dashboard) (db_id : Nat) (sheets : List String) :
    ∀ st : RunSt, processSheets env db db_id st sheets =
      RunSt.mk (st.events ++ sheets.flatMap (sheetEventsModel env))
        (st.logs ++ sheets.flatMap (sheetLogsModel env))
        (DriveSt.mk st.drive.folders
          (st.drive.artifacts ++ sheets.flatMap (sheetArtifactsModel env db db_id))
          st.drive.nextId)
        st.ops := by
  induction sheets with
  | nil =>
    intro st
    obtain ⟨ev, lg, ⟨fo, ar, ni⟩, op⟩ := st
    simp [processSheets]
  | cons s rest ih =>
    intro st
    show processSheets env db db_id (processSheet env db db_id st s) rest = _
    rw [processSheet_spec, ih]
    simp

theorem sheetEventsModel_label (env : Env) (sheet : String) :
    (sheetEventsModel env sheet).map eventLabel = specSheetTrace env sheet := by
  unfold sheetEventsModel specSheetTrace
  cases env.latestQueryId sheet with
  | none => simp [eventLabel]
  | some q =>
    by_cases h : (gemini_sensor_with_retry (env.probe sheet) gemini_default_max_retries).1
    <;> simp [h, eventLabel]

theorem flatMap_sheetLogs (env : Env) (sheets : List String) :
    sheets.flatMap (sheetLogsModel env) =
      (sheets.filter (fun s => (env.latestQueryId s).isSome)).map mkGovEntry := by
  induction sheets with
  | nil => rfl
  | cons s rest ih =>
    cases h : env.latestQueryId s with
    | none => simp [sheetLogsModel, h, ih]
    | some q => simp [sheetLogsModel, h, ih]

theorem processDashboards_spec (env : Env) (H : ∀ n, env.driveRaises n = false)
    (wb_id : Nat) (dbs : List Dashboard) :
    ∀ st : RunSt,
      (processDashboards env wb_id st dbs).2 = none ∧
      (processDashboards env wb_id st dbs).1.events.map eventLabel =
        st.events.map eventLabel ++ dbs.flatMap (specDashboardTrace env) ∧
      (processDashboards env wb_id st dbs).1.logs =
        st.logs ++ dbs.flatMap (fun db => db.sheets.flatMap (sheetLogsModel env)) ∧
      (processDashboards env wb_id st dbs).1.ops =
        st.ops ++ dbs.map (fun db => db.dashboard_name) := by
  induction dbs with
  | nil =>
    intro st
    exact ⟨rfl, by simp [processDashboards], by simp [processDashboards],
      by simp [processDashboards]⟩
  | cons db rest ih =>
    intro st
    obtain ⟨ev, lg, dr, op⟩ := st
    have step : processDashboards env wb_id (RunSt.mk ev lg dr op) (db :: rest) =
        processDashboards env wb_id
          (processSheets env db (get_or_create_folder dr db.dashboard_name (some wb_id)).1
            (RunSt.mk (ev ++ [Event.task1Folder db.dashboard_name
                (get_or_create_folder dr db.dashboard_name (some wb_id)).2.1])
              lg ((get_or_create_folder dr db.dashboard_name (some wb_id)).2.2)
              (op ++ [db.dashboard_name]))
            db.sheets) rest := by
      simp [processDashboards, driveEnsure, H]
    rw [step, processSheets_spec]
    obtain ⟨iha, ihb, ihc, ihd⟩ := ih _
    refine ⟨iha, ?_, ?_, ?_⟩
    · rw [ihb]
      simp [specDashboardTrace, eventLabel, List.map_flatMap, sheetEventsModel_label]
    · rw [ihc]
      simp
    · rw [ihd]
      simp

theorem processWorkbooks_spec (env : Env) (H : ∀ n, env.driveRaises n = false)
    (p_id : Nat) (wbs : List Workbook) :
    ∀ st : RunSt,
      (processWorkbooks env p_id st wbs).2 = none ∧
      (processWorkbooks env p_id st wbs).1.events.map eventLabel =
        st.events.map eventLabel ++
          wbs.flatMap (fun wb => wb.dashboards.flatMap (specDashboardTrace env)) ∧
      (processWorkbooks env p_id st wbs).1.logs =
        st.logs ++ wbs.flatMap (fun wb =>
          wb.dashboards.flatMap (fun db => db.sheets.flatMap (sheetLogsModel env))) ∧
      (processWorkbooks env p_id st wbs).1.ops =
        st.ops ++ wbs.flatMap (fun wb =>
          wb.workbook_name :: wb.dashboards.map (fun db => db.dashboard_name)) := by
  induction wbs with
  | nil =>
    intro st
    exact ⟨rfl, by simp [processWorkbooks], by simp [processWorkbooks],
      by simp [processWorkbooks]⟩
  | cons wb rest ih =>
    intro st
    obtain ⟨ev, lg, dr, op⟩ := st
    obtain ⟨pda, pdb, pdc, pdd⟩ := processDashboards_spec env H
      (get_or_create_folder dr wb.workbook_name (some p_id)).1 wb.dashboards
      (RunSt.mk ev lg ((get_or_create_folder dr wb.workbook_name (some p_id)).2.2)
        (op ++ [wb.workbook_name]))
    have step : processWorkbooks env p_id (RunSt.mk ev lg dr op) (wb :: rest) =
        processWorkbooks env p_id
          (processDashboards env (get_or_create_folder dr wb.workbook_name (some p_id)).1
            (RunSt.mk ev lg ((get_or_create_folder dr wb.workbook_name (some p_id)).2.2)
              (op ++ [wb.workbook_name]))
            wb.dashboards).1 rest := by
      simp [processWorkbooks, driveEnsure, H]
      rw [pda]
    rw [step]
    obtain ⟨iha, ihb, ihc, ihd⟩ := ih _
    refine ⟨iha, ?_, ?_, ?_⟩
    · rw [ihb, pdb]
      simp
    · rw [ihc, pdc]
      simp
    · rw [ihd, pdd]
      simp

theorem runDag_no_failure (env : Env) (cfg : Config) (drive0 : DriveSt)
    (hsf : env.snowflakeOk = true) (hdr : env.driveOk = true) (hgm : env.geminiOk = true)
    (H : ∀ n, env.driveRaises n = false) :
    (runDag env cfg drive0).events.map eventLabel = specTrace env cfg ∧
    (runDag env cfg drive0).logs = (extractedSheets env cfg).map mkGovEntry ∧
    (runDag env cfg drive0).ops = docOrderOps cfg ∧
    (runDag env cfg drive0).completed = true := by
  obtain ⟨pwa, pwb, pwc, pwd⟩ := processWorkbooks_spec env H
    (get_or_create_folder drive0 cfg.project_name none).1 cfg.workbooks
    (RunSt.mk [Event.projectCheck cfg.project_name
        (get_or_create_folder drive0 cfg.project_name none).2.1]
      [] ((get_or_create_folder drive0 cfg.project_name none).2.2) [cfg.project_name])
  have step : runDag env cfg drive0 =
      RunResult.mk
        (processWorkbooks env (get_or_create_folder drive0 cfg.project_name none).1
          (RunSt.mk [Event.projectCheck cfg.project_name
              (get_or_create_folder drive0 cfg.project_name none).2.1]
            [] ((get_or_create_folder drive0 cfg.project_name none).2.2)
            [cfg.project_name]) cfg.workbooks).1.events
        (processWorkbooks env (get_or_create_folder drive0 cfg.project_name none).1
          (RunSt.mk [Event.projectCheck cfg.project_name
              (get_or_create_folder drive0 cfg.project_name none).2.1]
            [] ((get_or_create_folder drive0 cfg.project_name none).2.2)
            [cfg.project_name]) cfg.workbooks).1.logs
        (processWorkbooks env (get_or_create_folder drive0 cfg.project_name none).1
          (RunSt.mk [Event.projectCheck cfg.project_name
              (get_or_create_folder drive0 cfg.project_name none).2.1]
            [] ((get_or_create_folder drive0 cfg.project_name none).2.2)
            [cfg.project_name]) cfg.workbooks).1.drive
        (processWorkbooks env (get_or_create_folder drive0 cfg.project_name none).1
          (RunSt.mk [Event.projectCheck cfg.project_name
              (get_or_create_folder drive0 cfg.project_name none).2.1]
            [] ((get_or_create_folder drive0 cfg.project_name none).2.2)
            [cfg.project_name]) cfg.workbooks).1.ops
        true := by
    simp only [runDag, hsf, hdr, hgm, Bool.and_self, if_true, driveEnsure, H,
      Bool.false_eq_true, if_false]
    rw [pwa]
  rw [step]
  refine ⟨?_, ?_, ?_, rfl⟩
  · rw [pwb]
    simp [specTrace, eventLabel]
  · rw [pwc]
    simp [extractedSheets, List.map_flatMap, flatMap_sheetLogs]
  · rw [pwd]
    simp [docOrderOps]

/-- C8: with all three collaborators initialized and no folder call raising,
the run traverses the task graph depth-first in document order: the project
container first, then for each workbook (in configuration order) its
container, then for each dashboard its container, then for each sheet the
extract, place and verify steps; the reconciliation calls and the emitted
status events both equal the document-order sequence computed from the
configuration alone, so the event sequence is deterministic and
reproducible. -/
theorem c8_document_order (env : Env) (cfg : Config) (drive0 : DriveSt)
    (hsf : env.snowflakeOk = true) (hdr : env.driveOk = true) (hgm : env.geminiOk = true)
    (H : ∀ n, env.driveRaises n = false) :
    (runDag env cfg drive0).events.map eventLabel = specTrace env cfg ∧
    (runDag env cfg drive0).ops = docOrderOps cfg ∧
    (runDag env cfg drive0).completed = true := by
  obtain ⟨h1, _h2, h3, h4⟩ := runDag_no_failure env cfg drive0 hsf hdr hgm H
  exact ⟨h1, h3, h4⟩

def c8Env : Env :=
  Env.mk true true true (fun _ => false) (fun _ => some "q")
    (fun _ => Table.mk ["A"] [["x"]]) (fun _ _ => true)

def c8Cfg : Config :=
  Config.mk "P" [Workbook.mk "W1" [Dashboard.mk "D1" ["S1", "S2"] ["A"]],
    Workbook.mk "W2" [Dashboard.mk "D2" ["S3"] []]]

/-- Witness for `c8_document_order` on a two-workbook configuration. -/
theorem c8_document_order_witness :
    c8Env.snowflakeOk = true ∧ c8Env.driveOk = true ∧ c8Env.geminiOk = true ∧
    (∀ n, c8Env.driveRaises n = false) ∧
    ((runDag c8Env c8Cfg (DriveSt.mk [] [] 0)).events.map eventLabel =
        specTrace c8Env c8Cfg ∧
     (runDag c8Env c8Cfg (DriveSt.mk [] [] 0)).ops = docOrderOps c8Cfg ∧
     (runDag c8Env c8Cfg (DriveSt.mk [] [] 0)).completed = true) :=
  ⟨rfl, rfl, rfl, fun _ => rfl,
   c8_document_order c8Env c8Cfg (DriveSt.mk [] [] 0) rfl rfl rfl (fun _ => rfl)⟩

def c1Env : Env :=
  Env.mk true true true (fun _ => false) (fun _ => some "q")
    (fun _ => Table.mk ["A"] [["x"]]) (fun _ _ => false)

def c1Cfg : Config := Config.mk "P" [Workbook.mk "W" [Dashboard.mk "D" ["S"] []]]

/-- C1 (counterexample): a run in which the Gemini sensor body raises on
every attempt for sheet S: the verifier returns the exhausted outcome — the
Task 3 Failed event is emitted — and yet the governance entry appended for S
reads Gemini = "Verified".  The recorded status does not equal the verifier's
outcome, because line 149 appends the constant record regardless of `ok`. -/
theorem c1_counterexample :
    Event.task3Failed "S" geminiFailMsg ∈ (runDag c1Env c1Cfg (DriveSt.mk [] [] 0)).events ∧
    (runDag c1Env c1Cfg (DriveSt.mk [] [] 0)).logs =
      [LogEntry.mk "S" "Complete" "Verified"] :=
  ⟨by decide, by decide⟩

/-- C1 (amended): in a run where every folder call succeeds, the governance
log receives exactly one entry per successfully extracted sheet, in document
order, and that entry is the constant record Status = "Complete",
Gemini = "Verified" — independent of the Index-Sync Verifier's outcome (the
probe behaviour `env.probe` is unconstrained here); the run is marked
complete whenever no exception escapes, again independent of verification
outcomes.  No overall success indicator derived from the per-sheet statuses
exists. -/
theorem c1_gov_entry_constant (env : Env) (cfg : Config) (drive0 : DriveSt)
    (hsf : env.snowflakeOk = true) (hdr : env.driveOk = true) (hgm : env.geminiOk = true)
    (H : ∀ n, env.driveRaises n = false) :
    (runDag env cfg drive0).logs = (extractedSheets env cfg).map mkGovEntry ∧
    (runDag env cfg drive0).completed = true := by
  obtain ⟨_h1, h2, _h3, h4⟩ := runDag_no_failure env cfg drive0 hsf hdr hgm H
  exact ⟨h2, h4⟩

/-- Witness for `c1_gov_entry_constant` at an environment whose probe raises
on every attempt: every verification is exhausted, yet the log entry says
Verified and the run is marked complete. -/
theorem c1_gov_entry_constant_witness :
    c1Env.snowflakeOk = true ∧ c1Env.driveOk = true ∧ c1Env.geminiOk = true ∧
    (∀ n, c1Env.driveRaises n = false) ∧
    ((runDag c1Env c1Cfg (DriveSt.mk [] [] 0)).logs =
        (extractedSheets c1Env c1Cfg).map mkGovEntry ∧
     (runDag c1Env c1Cfg (DriveSt.mk [] [] 0)).completed = true) :=
  ⟨rfl, rfl, rfl, fun _ => rfl,
   c1_gov_entry_constant c1Env c1Cfg (DriveSt.mk [] [] 0) rfl rfl rfl (fun _ => rfl)⟩

theorem specTrace_no_task3_of_none (env : Env) (cfg : Config) (s : String)
    (hs : env.latestQueryId s = none) :
    ("task3start", s) ∉ specTrace env cfg := by
  intro hmem
  simp only [specTrace, List.mem_cons, List.mem_flatMap] at hmem
  rcases hmem with heq | ⟨wb, _hwb, db, _hdb, hmem⟩
  · simp at heq
  · simp only [specDashboardTrace, List.mem_cons, List.mem_flatMap] at hmem
    rcases hmem with heq | ⟨sh, _hsh, hmem⟩
    · simp at heq
    · unfold specSheetTrace at hmem
      cases h : env.latestQueryId sh with
      | none =>
        rw [h] at hmem
        simp at hmem
      | some q =>
        rw [h] at hmem
        by_cases hp : (gemini_sensor_with_retry (env.probe sh) gemini_default_max_retries).1
        · simp only [hp, if_true, List.mem_cons, List.not_mem_nil] at hmem
          rcases hmem with h1 | h1 | h1 | h1 | h1 <;> simp at h1
          rw [h1] at hs
          rw [hs] at h
          cases h
        · simp only [hp, Bool.false_eq_true, if_false, List.mem_cons,
            List.not_mem_nil] at hmem
          rcases hmem with h1 | h1 | h1 | h1 | h1 <;> simp at h1
          rw [h1] at hs
          rw [hs] at h
          cases h

/-- C2 (amended): a sheet whose extraction finds no successful result set is
silently omitted from the run report — the governance log receives no entry
at all for it (rather than a terminal Failed entry) — and verification is
indeed never attempted for it; only sheets with a successful extraction are
recorded. -/
theorem c2_no_result_sheet_omitted (env : Env) (cfg : Config) (drive0 : DriveSt)
    (hsf : env.snowflakeOk = true) (hdr : env.driveOk = true) (hgm : env.geminiOk = true)
    (H : ∀ n, env.driveRaises n = false) (s : String)
    (hs : env.latestQueryId s = none) :
    (∀ e ∈ (runDag env cfg drive0).logs, e.task ≠ s) ∧
    Event.task3Verify s ∉ (runDag env cfg drive0).events := by
  obtain ⟨h1, h2, _h3, _h4⟩ := runDag_no_failure env cfg drive0 hsf hdr hgm H
  constructor
  · intro e he
    rw [h2, List.mem_map] at he
    obtain ⟨x, hx, rfl⟩ := he
    have hxs : (env.latestQueryId x).isSome = true := by
      simp only [extractedSheets, List.mem_flatMap, List.mem_filter] at hx
      obtain ⟨wb, _, db, _, _, hxf⟩ := hx
      exact hxf
    intro heq
    have hxe : x = s := heq
    rw [hxe, hs] at hxs
    cases hxs
  · intro hmem
    have hlab : ("task3start", s) ∈ (runDag env cfg drive0).events.map eventLabel :=
      List.mem_map_of_mem eventLabel hmem
    rw [h1] at hlab
    exact specTrace_no_task3_of_none env cfg s hs hlab

def c2Env : Env :=
  Env.mk true true true (fun _ => false) (fun _ => none)
    (fun _ => Table.mk [] []) (fun _ _ => true)

def c2Cfg : Config := Config.mk "P" [Workbook.mk "W" [Dashboard.mk "D" ["S"] []]]

/-- C2 (counterexample): sheet S is listed in the configuration and its
extraction finds no successful result set; the run report is empty — S gets
no terminal Failed entry, it is silently dropped from the report. -/
theorem c2_counterexample :
    "S" ∈ (c2Cfg.workbooks.flatMap (fun wb =>
      wb.dashboards.flatMap (fun db => db.sheets))) ∧
    Event.task2Extract "S" ∈ (runDag c2Env c2Cfg (DriveSt.mk [] [] 0)).events ∧
    (runDag c2Env c2Cfg (DriveSt.mk [] [] 0)).logs = [] :=
  ⟨by decide, by decide, by decide⟩

/-- Witness for `c2_no_result_sheet_omitted` at a configuration listing sheet
S whose extraction finds nothing. -/
theorem c2_no_result_sheet_omitted_witness :
    c2Env.snowflakeOk = true ∧ c2Env.driveOk = true ∧ c2Env.geminiOk = true ∧
    (∀ n, c2Env.driveRaises n = false) ∧ c2Env.latestQueryId "S" = none ∧
    ((∀ e ∈ (runDag c2Env c2Cfg (DriveSt.mk [] [] 0)).logs, e.task ≠ "S") ∧
     Event.task3Verify "S" ∉ (runDag c2Env c2Cfg (DriveSt.mk [] [] 0)).events) :=
  ⟨rfl, rfl, rfl, fun _ => rfl, rfl,
   c2_no_result_sheet_omitted c2Env c2Cfg (DriveSt.mk [] [] 0) rfl rfl rfl
     (fun _ => rfl) "S" rfl⟩

/-- C3 (amended): with collaborators initialized, a ReconcileError raised
while ensuring the first workbook's container aborts the entire remaining
run: the exception propagates to the single handler of line 153, which
records an Orchestration Error and ends the run; the sibling workbook is
never processed (no reconciliation call is issued beyond the failing one),
the report stays empty — in particular no Skipped entries exist — and the
run is not marked complete.  The run aborts before any work only when a
collaborator fails to initialize. -/
theorem c3_reconcile_aborts_run (env : Env) (pname : String) (w1 w2 : Workbook)
    (drive0 : DriveSt)
    (hsf : env.snowflakeOk = true) (hdr : env.driveOk = true) (hgm : env.geminiOk = true)
    (hp : env.driveRaises pname = false)
    (hw : env.driveRaises w1.workbook_name = true) :
    (runDag env (Config.mk pname [w1, w2]) drive0).completed = false ∧
    (runDag env (Config.mk pname [w1, w2]) drive0).ops = [pname, w1.workbook_name] ∧
    (runDag env (Config.mk pname [w1, w2]) drive0).logs = [] ∧
    (∃ pmsg, (runDag env (Config.mk pname [w1, w2]) drive0).events =
      [Event.projectCheck pname pmsg,
       Event.orchestrationError (String.append "ReconcileError: " w1.workbook_name)]) := by
  have step : runDag env (Config.mk pname [w1, w2]) drive0 =
      RunResult.mk
        [Event.projectCheck pname (get_or_create_folder drive0 pname none).2.1,
         Event.orchestrationError (String.append "ReconcileError: " w1.workbook_name)]
        [] ((get_or_create_folder drive0 pname none).2.2) [pname, w1.workbook_name]
        false := by
    simp [runDag, hsf, hdr, hgm, driveEnsure, hp, hw, processWorkbooks]
  rw [step]
  exact ⟨rfl, rfl, rfl, ⟨(get_or_create_folder drive0 pname none).2.1, rfl⟩⟩

def c3Env : Env :=
  Env.mk true true true (fun n => n == "W1") (fun _ => some "q")
    (fun _ => Table.mk ["A"] [["x"]]) (fun _ _ => true)

def c3Cfg : Config :=
  Config.mk "P" [Workbook.mk "W1" [Dashboard.mk "D1" ["S1"] []],
    Workbook.mk "W2" [Dashboard.mk "D2" ["S2"] []]]

/-- C3 (counterexample): two workbooks W1 and W2; the folder call for W1
raises.  The run ends at the Orchestration Error: W2 (and its dashboard D2
and sheet S2) is never processed, no reconciliation call is issued after W1,
the report contains no entries at all — no Skipped entries for the affected
subtree either — and the run aborts on this leaf failure. -/
theorem c3_counterexample :
    (runDag c3Env c3Cfg (DriveSt.mk [] [] 0)).events =
      [Event.projectCheck "P" "CREATED",
       Event.orchestrationError "ReconcileError: W1"] ∧
    (runDag c3Env c3Cfg (DriveSt.mk [] [] 0)).completed = false ∧
    (runDag c3Env c3Cfg (DriveSt.mk [] [] 0)).logs = [] ∧
    (runDag c3Env c3Cfg (DriveSt.mk [] [] 0)).ops = ["P", "W1"] :=
  ⟨by decide, by decide, by decide, by decide⟩

/-- Witness for `c3_reconcile_aborts_run` at the two-workbook configuration
whose first workbook folder call raises. -/
theorem c3_reconcile_aborts_run_witness :
    c3Env.snowflakeOk = true ∧ c3Env.driveOk = true ∧ c3Env.geminiOk = true ∧
    c3Env.driveRaises "P" = false ∧ c3Env.driveRaises "W1" = true ∧
    ((runDag c3Env (Config.mk "P" [Workbook.mk "W1" [Dashboard.mk "D1" ["S1"] []],
        Workbook.mk "W2" [Dashboard.mk "D2" ["S2"] []]]) (DriveSt.mk [] [] 0)).completed =
          false ∧
     (runDag c3Env (Config.mk "P" [Workbook.mk "W1" [Dashboard.mk "D1" ["S1"] []],
        Workbook.mk "W2" [Dashboard.mk "D2" ["S2"] []]]) (DriveSt.mk [] [] 0)).ops =
          ["P", "W1"] ∧
     (runDag c3Env (Config.mk "P" [Workbook.mk "W1" [Dashboard.mk "D1" ["S1"] []],
        Workbook.mk "W2" [Dashboard.mk "D2" ["S2"] []]]) (DriveSt.mk [] [] 0)).logs = [] ∧
     (∃ pmsg, (runDag c3Env (Config.mk "P" [Workbook.mk "W1" [Dashboard.mk "D1" ["S1"] []],
        Workbook.mk "W2" [Dashboard.mk "D2" ["S2"] []]]) (DriveSt.mk [] [] 0)).events =
       [Event.projectCheck "P" pmsg,
        Event.orchestrationError (String.append "ReconcileError: " "W1")])) :=
  ⟨rfl, rfl, rfl, by decide, by decide,
   c3_reconcile_aborts_run c3Env "P" (Workbook.mk "W1" [Dashboard.mk "D1" ["S1"] []])
     (Workbook.mk "W2" [Dashboard.mk "D2" ["S2"] []]) (DriveSt.mk [] [] 0)
     rfl rfl rfl (by decide) (by decide)⟩

def c5Doc : Json :=
  Json.obj [("project_name", Json.str "P"),
    ("workbooks", Json.arr [Json.obj [("workbook_name", Json.str "W"),
      ("dashboards", Json.arr [Json.obj [("dashboard_name", Json.str "D"),
        ("sheets", Json.arr [Json.str "A", Json.str "A"])]])]])]

def c5Env : Env :=
  Env.mk true true true (fun _ => false) (fun _ => some "q")
    (fun _ => Table.mk ["A"] [["x"]]) (fun _ _ => true)

/-- C5 (counterexample): a document carrying two sheets tagged A under the
same dashboard is accepted by the upload handler exactly as uploaded — no
ConfigError of any kind is produced — it decodes through the dictionary
accesses the page performs, and the triggered run starts and walks the
hierarchy.  Parsing neither fails with DuplicateSheetTag nor stops the run
from starting. -/
theorem c5_counterexample :
    loadConfigUpload c5Doc = Except.ok c5Doc ∧
    hasDuplicateSheetTag c5Doc ∧
    decodeConfig c5Doc =
      Except.ok (Config.mk "P" [Workbook.mk "W" [Dashboard.mk "D" ["A", "A"] []]]) ∧
    Event.projectCheck "P" "CREATED" ∈
      (runDag c5Env (Config.mk "P" [Workbook.mk "W" [Dashboard.mk "D" ["A", "A"] []]])
        (DriveSt.mk [] [] 0)).events := by
  refine ⟨rfl, ?_, rfl, by decide⟩
  refine ⟨Json.obj [("workbook_name", Json.str "W"),
      ("dashboards", Json.arr [Json.obj [("dashboard_name", Json.str "D"),
        ("sheets", Json.arr [Json.str "A", Json.str "A"])]])],
    List.mem_singleton.mpr rfl,
    Json.obj [("dashboard_name", Json.str "D"),
      ("sheets", Json.arr [Json.str "A", Json.str "A"])],
    List.mem_singleton.mpr rfl, ?_⟩
  decide

/-- C5 (amended): the upload handler validates nothing beyond what
`json.load` itself requires: every parsed document is stored as-is and no
ConfigError is ever produced, so duplicate sheet tags are accepted and the
run can start; a structurally deficient document such as one missing
`project_name` surfaces only later, as a KeyError when the field is read,
not as a MalformedDocument configuration error at load time. -/
theorem c5_no_validation (doc : Json) :
    loadConfigUpload doc = Except.ok doc ∧
    (doc.getField "project_name" = none →
      decodeConfig doc = Except.error "KeyError: project_name") := by
  refine ⟨rfl, ?_⟩
  intro h
  unfold decodeConfig
  rw [h]

/-- Witness for `c5_no_validation` at the empty document. -/
theorem c5_no_validation_witness :
    (Json.obj []).getField "project_name" = none ∧
    (loadConfigUpload (Json.obj []) = Except.ok (Json.obj []) ∧
     ((Json.obj []).getField "project_name" = none →
       decodeConfig (Json.obj []) = Except.error "KeyError: project_name")) :=
  ⟨rfl, c5_no_validation (Json.obj [])⟩

end SnowGem
